import Mathlib

/-! QuantCanvas kdb+ supervisor (`app.go`)

A shallow embedding of the process supervisor of `app.go`: the port inspector
(`isPortInUse`), the port evictor (`killProcessOnPort`), the launcher
(`startKdb`), and the supervisor operations (`stopKdb`, `GetKdbStatus`,
`StartKdb`, `StopKdb`, `RestartKdb`, `ForceStartKdb`).

Go strings are lists of characters.  Every call that leaves the Go program
(`netstat`, `taskkill`, `exec.LookPath`, `os.WriteFile`, process start, kill
and wait, `time.Sleep`) is a field of an `OS` record acting on an abstract
world `W`, and is appended to a chronological trace of `Event`s, so that
"no process was spawned" is a statement about the trace.
-/

namespace QuantCanvas

/-! ## Go strings -/

/-- A Go `string`, as its sequence of characters. -/
abbrev GoString := List Char

/-- The Go function `strings.HasPrefix(s, p)`. -/
def HasPrefix : GoString → GoString → Bool
  | _, [] => true
  | [], _ :: _ => false
  | c :: s, d :: p => c == d && HasPrefix s p

/-- The Go function `strings.Contains(s, substr)`. -/
def Contains : GoString → GoString → Bool
  | [], substr => HasPrefix [] substr
  | c :: s, substr => HasPrefix (c :: s) substr || Contains s substr

/-- The Go call `strings.Split(s, "\n")`: always at least one piece. -/
def SplitLines : GoString → List GoString
  | [] => [[]]
  | c :: s =>
    if c = '\n' then [] :: SplitLines s
    else
      match SplitLines s with
      | l :: ls => (c :: l) :: ls
      | [] => [[c]]

/-- The Go predicate `unicode.IsSpace`, by code point. -/
def IsSpace (c : Char) : Bool :=
  let n := c.toNat
  (9 ≤ n && n ≤ 13) || n == 32 || n == 0x85 || n == 0xA0 || n == 0x1680 ||
  (0x2000 ≤ n && n ≤ 0x200A) || n == 0x2028 || n == 0x2029 || n == 0x202F ||
  n == 0x205F || n == 0x3000

/-- Loop of `strings.Fields`: `cur` is the field being read, reversed. -/
def fieldsLoop : GoString → GoString → List GoString
  | cur, [] => if cur.isEmpty then [] else [cur.reverse]
  | cur, c :: s =>
    if IsSpace c then
      (if cur.isEmpty then fieldsLoop [] s else cur.reverse :: fieldsLoop [] s)
    else fieldsLoop (c :: cur) s

/-- The Go function `strings.Fields(s)`: maximal runs of non-space characters. -/
def Fields (s : GoString) : List GoString := fieldsLoop [] s

/-- The verb `%d` of `fmt.Sprintf` on an `int`. -/
def fmtInt (n : Int) : GoString :=
  if n < 0 then '-' :: Nat.toDigits 10 n.natAbs else Nat.toDigits 10 n.toNat

/-- The Go expression `fmt.Sprintf(":%d", port)`. -/
def portNeedle (port : Int) : GoString := ':' :: fmtInt port

/-- The condition of the `if` at lines 39 and 160:
`strings.Contains(line, fmt.Sprintf(":%d", port)) && strings.Contains(line, "LISTENING")`. -/
def lineMatches (port : Int) (line : GoString) : Bool :=
  Contains line (portNeedle port) && Contains line "LISTENING".toList

/-! ## Errors, processes, the OS boundary -/

/-- An error value coming from the OS or the Go runtime, by an opaque code. -/
abbrev OsErr := Nat

/-- The errors built by `fmt.Errorf` in `app.go`; a `cause` argument is the
error wrapped by `%w`. -/
inductive Error where
  /-- an error returned by an OS call, unwrapped -/
  | os (code : OsErr)
  /-- line 68: "'q' executable not found in PATH. ...: %w" -/
  | qNotFound (cause : Error)
  /-- line 93: "failed to create kdb+ init script: %w" -/
  | scriptCreateFailed (cause : Error)
  /-- line 102: "failed to start kdb+ process: %w" -/
  | processStartFailed (cause : Error)
  /-- line 121: "kdb+ process exited unexpectedly. ... Error: %v", with the
  result of `Wait` (possibly nil) -/
  | exitedUnexpectedly (waitErr : Option OsErr)
  /-- line 136: "failed to stop kdb+ process: %w" -/
  | stopProcessFailed (cause : Error)
  /-- line 153: "failed to run netstat: %w" -/
  | netstatFailed (cause : Error)
  /-- line 169: "failed to kill process %s: %w" -/
  | killFailed (pid : GoString) (cause : Error)
  /-- line 178: "no process found listening on port %d" -/
  | noProcessListening (port : Int)
  /-- line 227: "kdb+ is already running" -/
  | alreadyRunning
  /-- line 232: "failed to start kdb+: %w" -/
  | startFailed (cause : Error)
  /-- line 244: "failed to stop kdb+: %w" -/
  | stopFailed (cause : Error)
  /-- line 265: "failed to restart kdb+: %w" -/
  | restartFailed (cause : Error)
  /-- line 280: "failed to kill existing process: %w" -/
  | killExistingFailed (cause : Error)
  /-- line 294: "failed to force start kdb+: %w" -/
  | forceStartFailed (cause : Error)
deriving DecidableEq, Repr

/-- What the code reads of an `*os.ProcessState`: the value of `Exited()`. -/
structure OsProcessState where
  exited : Bool
deriving DecidableEq, Repr

/-- The fields of `*exec.Cmd` that `app.go` reads: `Process` (nil until `Start`
succeeds; a process is identified by its pid) and `ProcessState` (nil until
`Wait` has returned). -/
structure Cmd where
  Process : Option Nat
  ProcessState : Option OsProcessState
deriving DecidableEq, Repr

/-- The struct `App` (the `ctx` field is not read by the supervisor). -/
structure App where
  kdbCmd : Option Cmd
  kdbPort : Int
deriving DecidableEq, Repr

/-- The function `NewApp`. -/
def NewApp : App := { kdbCmd := none, kdbPort := 5555 }

/-- A call that leaves the program, as recorded in the trace, whether or not
the call succeeds. -/
inductive Event where
  /-- running `netstat -ano` (lines 30-31 and 150-151) -/
  | netstat
  /-- the call `exec.LookPath("q")` (line 67) -/
  | lookPath
  /-- the call `os.WriteFile` of the init script (line 92) -/
  | writeFile
  /-- the call `a.kdbCmd.Start()` (line 101) -/
  | spawn
  /-- the `select` between the exit of process `pid` and the timer (line 113) -/
  | awaitExit (pid : Nat)
  /-- the call `a.kdbCmd.Process.Kill()` (line 135) -/
  | kill (pid : Nat)
  /-- the wait for process `pid` under `a.kdbCmd.Wait()` (line 139) -/
  | wait (pid : Nat)
  /-- running `taskkill /F /PID pid` (lines 167-168) -/
  | taskkill (pid : GoString)
  /-- the call `time.Sleep` (lines 261, 283, 289) -/
  | sleep (seconds : Nat)
deriving DecidableEq, Repr

/-- The behaviour of the operating system over a world `W`.
* `netstat`: `exec.Command("netstat", "-ano").Output()`;
* `lookPath`: the error of `exec.LookPath("q")`;
* `writeFile`: the error of `os.WriteFile(scriptPath, content, 0644)`;
* `start`: `a.kdbCmd.Start()`, giving the pid of the new process;
* `awaitExit`: the `select` of lines 113-125; `some (err, st)` when the
  background `Wait` returned `err` within two seconds, having recorded `st`
  as the `ProcessState`, and `none` when the timer fired first;
* `kill`: the error of `Process.Kill()`;
* `wait`: `Process.Wait()` under `Cmd.Wait`, giving the recorded state;
* `taskkill`: the error of `exec.Command("taskkill", "/F", "/PID", pid).Run()`;
* `sleep`: `time.Sleep` of that many seconds. -/
structure OS (W : Type) where
  netstat : W → (OsErr ⊕ GoString) × W
  lookPath : W → Option OsErr × W
  writeFile : GoString → W → Option OsErr × W
  start : W → (OsErr ⊕ Nat) × W
  awaitExit : Nat → W → Option (Option OsErr × Option OsProcessState) × W
  kill : Nat → W → Option OsErr × W
  wait : Nat → W → Option OsProcessState × W
  taskkill : GoString → W → Option OsErr × W
  sleep : Nat → W → W

/-- The supervisor together with the world it runs in and the calls made so far. -/
structure State (W : Type) where
  app : App
  world : W
  trace : List Event

/-- Record an OS call and the world it leaves. -/
def State.emit {W : Type} (s : State W) (e : Event) (w : W) : State W :=
  { s with world := w, trace := s.trace ++ [e] }

/-- Assign the field `a.kdbCmd`. -/
def State.setCmd {W : Type} (s : State W) (c : Option Cmd) : State W :=
  { s with app := { s.app with kdbCmd := c } }

/-! ## Port inspector -/

/-- The loop of lines 38-43 over the lines of the netstat output. -/
def scanListening (port : Int) : List GoString → Bool
  | [] => false
  | line :: rest => if lineMatches port line then true else scanListening port rest

/-- The method `App.isPortInUse` (lines 28-46). -/
def isPortInUse {W : Type} (os : OS W) (port : Int) (s : State W) : Bool × State W :=
  match os.netstat s.world with
  | (.inl _, w) => (false, s.emit .netstat w)
  | (.inr output, w) => (scanListening port (SplitLines output), s.emit .netstat w)

/-- Lines 163-173: `pid := parts[len(parts)-1]` is killed with `taskkill`. -/
def taskkillPid {W : Type} (os : OS W) (pid : GoString) (s : State W) : Option Error × State W :=
  match os.taskkill pid s.world with
  | (some err, w) => (some (.killFailed pid (.os err)), s.emit (.taskkill pid) w)
  | (none, w) => (none, s.emit (.taskkill pid) w)

/-- The loop of lines 159-176: the first matching line with at least five
fields gets its last field passed to `taskkill`. -/
def killScan {W : Type} (os : OS W) (port : Int) : List GoString → State W → Option Error × State W
  | [], s => (some (.noProcessListening port), s)
  | line :: rest, s =>
    if lineMatches port line then
      let parts := Fields line
      if 5 ≤ parts.length then taskkillPid os (parts.getLastD []) s
      else killScan os port rest s
    else killScan os port rest s

/-- The method `App.killProcessOnPort` (lines 146-179). -/
def killProcessOnPort {W : Type} (os : OS W) (port : Int) (s : State W) : Option Error × State W :=
  match os.netstat s.world with
  | (.inl err, w) => (some (.netstatFailed (.os err)), s.emit .netstat w)
  | (.inr output, w) => killScan os port (SplitLines output) (s.emit .netstat w)

/-! ## Launcher -/

/-- The script of lines 72-88: `fmt.Sprintf` of the template with the port at
both `%d`. -/
def scriptContent (port : Int) : GoString :=
  (String.intercalate "\n"
    ["",
     "/ Enhanced WebSocket handler for QuantCanvas",
     ".z.wo:\x7b[x] 0N!\"[INFO] WebSocket opened: \",string x\x7d",
     ".z.wc:\x7b[x] 0N!\"[INFO] WebSocket closed: \",string x\x7d",
     ".z.ws:\x7b[x]",
     "  0N!\"[QUERY] Received: \",x;",
     "  / Evaluate the query safely and return errors as a queryable object",
     "  result: @[value; x; \x7b[e] 0N!\"[ERROR] \",e; (`error;`msg)!(`ExecutionError;e)\x7d];",
     "  / Send result back to the client as a JSON string",
     "  neg[.z.w] .j.j result;",
     " \x7d",
     "",
     "/ Set the listening port",
     "\\p "]).toList
  ++ fmtInt port
  ++ "\n/ Log that the server has started\n0N!\"[OK] kdb+ WebSocket server listening on port ".toList
  ++ fmtInt port
  ++ "\";\n".toList

/-- The method `App.startKdb` (lines 63-128).  The field `a.kdbCmd` is
assigned at line 97, before `Start`; `Start` sets `Process`; when the
background `Wait` returns inside the window it has set `ProcessState`.
When the timer fires first the background `Wait` keeps running: an exit it
records on the handle later, between two supervisor calls, is a step of the
environment and not part of this function. -/
def startKdb {W : Type} (os : OS W) (s : State W) : Option Error × State W :=
  match os.lookPath s.world with
  | (some err, w) => (some (.qNotFound (.os err)), s.emit .lookPath w)
  | (none, w) =>
    let s1 := s.emit .lookPath w
    match os.writeFile (scriptContent s1.app.kdbPort) s1.world with
    | (some err, w) => (some (.scriptCreateFailed (.os err)), s1.emit .writeFile w)
    | (none, w) =>
      let s2 := (s1.emit .writeFile w).setCmd (some { Process := none, ProcessState := none })
      match os.start s2.world with
      | (.inl err, w) => (some (.processStartFailed (.os err)), s2.emit .spawn w)
      | (.inr pid, w) =>
        let s3 := (s2.emit .spawn w).setCmd (some { Process := some pid, ProcessState := none })
        match os.awaitExit pid s3.world with
        | (some (err, st), w) =>
          let s4 := (s3.emit (.awaitExit pid) w).setCmd
            (some { Process := some pid, ProcessState := st })
          match isPortInUse os s4.app.kdbPort s4 with
          | (true, s5) => (none, s5.setCmd none)
          | (false, s5) => (some (.exitedUnexpectedly err), s5)
        | (none, w) => (none, s3.emit (.awaitExit pid) w)

/-! ## Supervisor -/

/-- The Go method `(*exec.Cmd).Wait` as `stopKdb` uses it (its error is
dropped): without a process, or with a `ProcessState` already recorded, it
returns at once; otherwise it waits for the process and records its state. -/
def cmdWait {W : Type} (os : OS W) (c : Cmd) (s : State W) : State W :=
  match c.Process with
  | none => s
  | some pid =>
    match c.ProcessState with
    | some _ => s
    | none =>
      match os.wait pid s.world with
      | (st, w) => (s.emit (.wait pid) w).setCmd (some { c with ProcessState := st })

/-- The method `App.stopKdb` (lines 131-143). -/
def stopKdb {W : Type} (os : OS W) (s : State W) : Option Error × State W :=
  match s.app.kdbCmd with
  | none => (none, s)
  | some c =>
    match c.Process with
    | none => (none, s)
    | some pid =>
      match os.kill pid s.world with
      | (some err, w) => (some (.stopProcessFailed (.os err)), s.emit (.kill pid) w)
      | (none, w) => (none, cmdWait os c (s.emit (.kill pid) w))

/-- Lines 190-193 of `GetKdbStatus`: the status read off the port. -/
def statusFromPort {W : Type} (os : OS W) (s : State W) : String × State W :=
  match isPortInUse os s.app.kdbPort s with
  | (true, s1) => ("running", s1)
  | (false, s1) => ("stopped", s1)

/-- The method `App.GetKdbStatus` (lines 187-208). -/
def GetKdbStatus {W : Type} (os : OS W) (s : State W) : String × State W :=
  match s.app.kdbCmd with
  | none => statusFromPort os s
  | some c =>
    match c.Process with
    | none => statusFromPort os s
    | some _ =>
      match c.ProcessState with
      | some st => if st.exited then ("stopped", s) else ("running", s)
      | none => ("running", s)

/-- The method `App.StartKdb` (lines 222-237). -/
def StartKdb {W : Type} (os : OS W) (s : State W) : Option Error × State W :=
  match GetKdbStatus os s with
  | (status, s1) =>
    if status = "running" then (some .alreadyRunning, s1)
    else
      match startKdb os s1 with
      | (some err, s2) => (some (.startFailed err), s2)
      | (none, s2) => (none, s2)

/-- The method `App.StopKdb` (lines 240-249). -/
def StopKdb {W : Type} (os : OS W) (s : State W) : Option Error × State W :=
  match stopKdb os s with
  | (some err, s1) => (some (.stopFailed err), s1)
  | (none, s1) => (none, s1)

/-- The call `time.Sleep(n * time.Second)`. -/
def sleepSeconds {W : Type} (os : OS W) (n : Nat) (s : State W) : State W :=
  s.emit (.sleep n) (os.sleep n s.world)

/-- The method `App.RestartKdb` (lines 252-270); the error of `stopKdb` is
only printed. -/
def RestartKdb {W : Type} (os : OS W) (s : State W) : Option Error × State W :=
  match startKdb os (sleepSeconds os 2 (stopKdb os s).2) with
  | (some err, s1) => (some (.restartFailed err), s1)
  | (none, s1) => (none, s1)

/-- Lines 286-290 of `ForceStartKdb`: stop our own process if one is held;
the result of `stopKdb` is dropped. -/
def stopOwnProcess {W : Type} (os : OS W) (s : State W) : State W :=
  match s.app.kdbCmd with
  | none => s
  | some c =>
    match c.Process with
    | none => s
    | some _ => sleepSeconds os 1 (stopKdb os s).2

/-- Lines 292-299 of `ForceStartKdb`: the launch and its wrapped error. -/
def forceLaunch {W : Type} (os : OS W) (s : State W) : Option Error × State W :=
  match startKdb os s with
  | (some err, s1) => (some (.forceStartFailed err), s1)
  | (none, s1) => (none, s1)

/-- The method `App.ForceStartKdb` (lines 273-299). -/
def ForceStartKdb {W : Type} (os : OS W) (s : State W) : Option Error × State W :=
  match isPortInUse os s.app.kdbPort s with
  | (true, s1) =>
    match killProcessOnPort os s1.app.kdbPort s1 with
    | (some err, s2) => (some (.killExistingFailed err), s2)
    | (none, s2) => forceLaunch os (stopOwnProcess os (sleepSeconds os 2 s2))
  | (false, s1) => forceLaunch os (stopOwnProcess os s1)

/-- Run an operation `n` times in a row, collecting the results. -/
def repeatOp {W : Type} (op : State W → Option Error × State W) :
    Nat → State W → List (Option Error) × State W
  | 0, s => ([], s)
  | n + 1, s =>
    match op s with
    | (r, s1) =>
      match repeatOp op n s1 with
      | (rs, s2) => (r :: rs, s2)

/-! ## A scripted operating system for concrete runs -/

/-- The answers of a scripted OS whose world is the number of `netstat`
calls made so far: `netstatAt k` is the answer to call number `k`. -/
structure Script where
  netstatAt : Nat → OsErr ⊕ GoString
  lookPathErr : Option OsErr
  writeErr : Option OsErr
  startRes : OsErr ⊕ Nat
  exitRes : Option (Option OsErr × Option OsProcessState)
  killErr : Option OsErr
  waitRes : Option OsProcessState
  taskkillErr : Option OsErr

/-- The OS that answers from a `Script`. -/
def Script.toOS (sc : Script) : OS Nat where
  netstat := fun k => (sc.netstatAt k, k + 1)
  lookPath := fun k => (sc.lookPathErr, k)
  writeFile := fun _ k => (sc.writeErr, k)
  start := fun k => (sc.startRes, k)
  awaitExit := fun _ k => (sc.exitRes, k)
  kill := fun _ k => (sc.killErr, k)
  wait := fun _ k => (sc.waitRes, k)
  taskkill := fun _ k => (sc.taskkillErr, k)
  sleep := fun _ k => k

/-- A netstat table with one listener on `0.0.0.0:5555`, owned by pid 4242. -/
def tableListening5555 : GoString :=
  "  TCP    0.0.0.0:5555           0.0.0.0:0              LISTENING       4242\r\n".toList

/-- A netstat table with no line at all. -/
def tableEmpty : GoString := []

/-- The supervisor right after `NewApp`, in world `0`, nothing called yet. -/
def freshState : State Nat := { app := NewApp, world := 0, trace := [] }

/-- A netstat table whose only listener is on port 55555 (pid 4321). -/
def tableListening55555 : GoString :=
  "  TCP    0.0.0.0:55555          0.0.0.0:0              LISTENING       4321\r\n".toList

/-- A netstat table whose only matching line has four fields. -/
def tableShortLine : GoString := "TCP 0.0.0.0:5555 LISTENING 4242\n".toList

/-- A scripted OS on which every call succeeds, `netstat` always prints
`table`, the spawned process gets pid 100 and outlives the window. -/
def calmScript (table : GoString) : Script where
  netstatAt := fun _ => .inr table
  lookPathErr := none
  writeErr := none
  startRes := .inr 100
  exitRes := none
  killErr := none
  waitRes := some { exited := true }
  taskkillErr := none

/-! ## The port inspector in the words of the specification -/

/-- The text after the last `:` of an address column (`0.0.0.0:5555`, `[::]:5555`). -/
def specPortText : GoString → GoString
  | [] => []
  | c :: s => if Contains s [':'] then specPortText s else if c = ':' then s else c :: s

/-- Specification wording: an entry "matching the exact port number with a
LISTENING state": a line of five columns (protocol, local address, foreign
address, state, pid) whose local port is `port` and whose state is `LISTENING`. -/
def specEntryListening (port : Int) (line : GoString) : Bool :=
  match Fields line with
  | [_, loc, _, state, _] => specPortText loc == fmtInt port && state == "LISTENING".toList
  | _ => false

/-- Specification wording: `IsPortListening(port)` is true iff such an entry exists. -/
def specIsPortListening (port : Int) (output : GoString) : Bool :=
  (SplitLines output).any (specEntryListening port)

/-- Specification wording: `FindOwningProcessId(port)` "extracts the PID
column of the first LISTENING match", the last column of the first entry
listening on exactly `port`. -/
def specFindOwningProcessId (port : Int) (output : GoString) : Option GoString :=
  match (SplitLines output).find? (specEntryListening port) with
  | some line => (Fields line).getLast?
  | none => none

/-- The guard `a.kdbCmd != nil && a.kdbCmd.Process != nil` of lines 132 and
287 (negated at line 188): the supervisor holds a handle with a process. -/
def App.holdsProcess (a : App) : Bool :=
  match a.kdbCmd with
  | none => false
  | some c => c.Process.isSome

/-- The lines `killProcessOnPort` acts on: matching, with at least five fields. -/
def killable (port : Int) (line : GoString) : Bool :=
  lineMatches port line && decide (5 ≤ (Fields line).length)

/-- The errors `startKdb` builds itself (lines 68, 93, 102, 121). -/
def Error.isLaunchError : Error → Bool
  | .qNotFound (.os _) => true
  | .scriptCreateFailed (.os _) => true
  | .processStartFailed (.os _) => true
  | .exitedUnexpectedly _ => true
  | _ => false

/-- What `isPortInUse` answers in world `w`: it reads nothing but `netstat`. -/
def listeningAt {W : Type} (os : OS W) (port : Int) (w : W) : Bool :=
  match (os.netstat w).1 with
  | .inl _ => false
  | .inr output => scanListening port (SplitLines output)

/-- The events that terminate a process: `Process.Kill` and `taskkill`. -/
def Event.isKill : Event → Bool
  | .kill _ => true
  | .taskkill _ => true
  | _ => false

/-- A supervisor holding the handle of process 100, not yet waited for. -/
def heldState : State Nat :=
  { app := { kdbCmd := some { Process := some 100, ProcessState := none }, kdbPort := 5555 },
    world := 0, trace := [] }

/-- A scripted OS on which the spawned process (pid 100) exits inside the
window with error 1 and `netstat` always prints `table`. -/
def quickExitScript (table : GoString) : Script where
  netstatAt := fun _ => .inr table
  lookPathErr := none
  writeErr := none
  startRes := .inr 100
  exitRes := some (some 1, some { exited := true })
  killErr := none
  waitRes := some { exited := true }
  taskkillErr := none

/-- A scripted OS on which the spawned process exits inside the window and
only the second `netstat` call (number 1) shows a listener on 5555. -/
def briefListenerScript : Script where
  netstatAt := fun k => if k = 1 then .inr tableListening5555 else .inr tableEmpty
  lookPathErr := none
  writeErr := none
  startRes := .inr 100
  exitRes := some (some 1, some { exited := true })
  killErr := none
  waitRes := some { exited := true }
  taskkillErr := none

/-- A scripted OS on which the port is free, `Process.Kill` fails with
error 1, and the launch goes well (pid 100 outlives the window). -/
def killFailsScript : Script where
  netstatAt := fun _ => .inr tableEmpty
  lookPathErr := none
  writeErr := none
  startRes := .inr 100
  exitRes := none
  killErr := some 1
  waitRes := none
  taskkillErr := none

/-- A netstat table with a listener on port 55555 (pid 4321) printed before
the listener on port 5555 (pid 4242). -/
def tableTwoListeners : GoString :=
  ("  TCP    0.0.0.0:55555          0.0.0.0:0              LISTENING       4321\r\n" ++
   "  TCP    127.0.0.1:5555         0.0.0.0:0              LISTENING       4242\r\n").toList

/-- A scripted OS that always prints `tableTwoListeners`, on which `taskkill`
succeeds and there is no `q` on the search path (lookup error 2). -/
def wrongOwnerScript : Script where
  netstatAt := fun _ => .inr tableTwoListeners
  lookPathErr := some 2
  writeErr := none
  startRes := .inr 100
  exitRes := none
  killErr := none
  waitRes := none
  taskkillErr := none

/-- A supervisor holding the handle of process 7, not yet waited for. -/
def heldState7 : State Nat :=
  { app := { kdbCmd := some { Process := some 7, ProcessState := none }, kdbPort := 5555 },
    world := 0, trace := [] }

/-! ## The string model on concrete texts -/

/-- The verb `%d` prints decimal digits, with a sign for negative numbers. -/
theorem fmtInt_examples :
    fmtInt 5555 = "5555".toList ∧ fmtInt 0 = "0".toList ∧ fmtInt (-12) = "-12".toList := by
  decide

/-- Splitting at newlines keeps the empty piece after a final newline. -/
theorem SplitLines_example :
    SplitLines "ab\ncd\n".toList = ["ab".toList, "cd".toList, []] ∧
    SplitLines [] = [[]] := by
  decide

/-- Fields are cut at runs of blanks, tabs and carriage returns. -/
theorem Fields_example :
    Fields "  TCP  0.0.0.0:5555 \t x\r".toList
      = ["TCP".toList, "0.0.0.0:5555".toList, "x".toList] := by
  decide

/-- On a well-formed table the specification's reading and the scan agree. -/
theorem specIsPortListening_example :
    specIsPortListening 5555 tableListening5555 = true ∧
    scanListening 5555 (SplitLines tableListening5555) = true ∧
    specIsPortListening 5555 tableEmpty = false ∧
    scanListening 5555 (SplitLines tableEmpty) = false := by
  decide

/-! ## Port inspector: facts -/

/-- The scan of `isPortInUse` finds a line iff some line matches. -/
theorem scanListening_eq_any (port : Int) (lines : List GoString) :
    scanListening port lines = lines.any (lineMatches port) := by
  induction lines with
  | nil => rfl
  | cons line rest ih =>
    cases h : lineMatches port line <;> simp [scanListening, h, ih]

/-- The loop of `killProcessOnPort` stops at the first killable line. -/
theorem killScan_of_find_some {W : Type} (os : OS W) (port : Int) (s : State W) :
    ∀ (lines : List GoString) (line : GoString),
      lines.find? (killable port) = some line →
      killScan os port lines s = taskkillPid os ((Fields line).getLastD []) s := by
  intro lines
  induction lines with
  | nil => intro line h; simp at h
  | cons l rest ih =>
    intro line h
    by_cases hm : lineMatches port l = true
    · by_cases hl : 5 ≤ (Fields l).length
      · have hk : killable port l = true := by simp [killable, hm, hl]
        rw [List.find?_cons_of_pos _ hk] at h
        cases h
        simp [killScan, hm, hl]
      · have hk : ¬ (killable port l = true) := by simp [killable, hm, hl]
        rw [List.find?_cons_of_neg _ hk] at h
        simp [killScan, hm, hl, ih line h]
    · have hk : ¬ (killable port l = true) := by simp [killable, hm]
      rw [List.find?_cons_of_neg _ hk] at h
      simp [killScan, hm, ih line h]

/-- With no killable line the loop of `killProcessOnPort` runs to its end. -/
theorem killScan_of_find_none {W : Type} (os : OS W) (port : Int) (s : State W) :
    ∀ (lines : List GoString),
      lines.find? (killable port) = none →
      killScan os port lines s = (some (.noProcessListening port), s) := by
  intro lines
  induction lines with
  | nil => intro _; rfl
  | cons l rest ih =>
    intro h
    by_cases hk : killable port l = true
    · rw [List.find?_cons_of_pos _ hk] at h
      cases h
    · rw [List.find?_cons_of_neg _ hk] at h
      by_cases hm : lineMatches port l = true
      · have hl : ¬ (5 ≤ (Fields l).length) := by
          intro hl; exact hk (by simp [killable, hm, hl])
        simp [killScan, hm, hl, ih h]
      · simp [killScan, hm, ih h]

/-- The call `taskkillPid` issues exactly one `taskkill`, for its argument. -/
theorem taskkillPid_trace {W : Type} (os : OS W) (pid : GoString) (s : State W) :
    (taskkillPid os pid s).2.trace = s.trace ++ [.taskkill pid] := by
  unfold taskkillPid
  rcases h : os.taskkill pid s.world with ⟨_ | e, w⟩ <;> simp [State.emit]

/-- The call `taskkillPid` succeeds or reports the failed kill of its argument. -/
theorem taskkillPid_result {W : Type} (os : OS W) (pid : GoString) (s : State W) :
    (taskkillPid os pid s).1 = none ∨
      ∃ e, (taskkillPid os pid s).1 = some (.killFailed pid (.os e)) := by
  unfold taskkillPid
  rcases h : os.taskkill pid s.world with ⟨_ | e, w⟩
  · left; rfl
  · right; exact ⟨e, rfl⟩

/-- C1, at the failing input: with port 5555 and a netstat table whose only
listener is on port 55555, `isPortInUse` answers true although no entry of
the table has local port 5555; the same happens for port 555 against a
listener on port 5555. -/
theorem isPortInUse_true_on_longer_port :
    (isPortInUse (calmScript tableListening55555).toOS 5555 freshState).1 = true ∧
    specIsPortListening 5555 tableListening55555 = false ∧
    (isPortInUse (calmScript tableListening5555).toOS 555 freshState).1 = true ∧
    specIsPortListening 555 tableListening5555 = false := by
  decide

/-- C10, as stated, fails: on a table whose only matching line has four
fields `isPortInUse` is true, yet `killProcessOnPort` issues no kill and
returns the no-process-found error. -/
theorem killProcessOnPort_short_line_no_kill :
    (isPortInUse (calmScript tableShortLine).toOS 5555 freshState).1 = true ∧
    (killProcessOnPort (calmScript tableShortLine).toOS 5555 freshState).1
      = some (.noProcessListening 5555) ∧
    (killProcessOnPort (calmScript tableShortLine).toOS 5555 freshState).2.trace
      = [.netstat] := by
  decide

/-- C10, amended: on a netstat output, `killProcessOnPort` makes the scan of
`isPortInUse` restricted to lines of at least five fields.  If a first such
line exists, exactly one `taskkill` is issued, for the last field of that
line, `isPortInUse` is true on the same output, and the result is success or
the wrapped kill failure.  If none exists, in particular whenever
`isPortInUse` is false, no kill is issued and the no-process-found error is
returned. -/
theorem killProcessOnPort_targets_first_killable {W : Type} (os : OS W) (port : Int)
    (s : State W) (output : GoString) (w : W) (h : os.netstat s.world = (.inr output, w)) :
    (∀ line, (SplitLines output).find? (killable port) = some line →
        (killProcessOnPort os port s).2.trace
          = s.trace ++ [.netstat, .taskkill ((Fields line).getLastD [])] ∧
        ((killProcessOnPort os port s).1 = none ∨
          ∃ e, (killProcessOnPort os port s).1
            = some (.killFailed ((Fields line).getLastD []) (.os e))) ∧
        (isPortInUse os port s).1 = true) ∧
    ((SplitLines output).find? (killable port) = none →
        killProcessOnPort os port s = (some (.noProcessListening port), s.emit .netstat w)) ∧
    ((isPortInUse os port s).1 = false →
        killProcessOnPort os port s = (some (.noProcessListening port), s.emit .netstat w)) := by
  have hk : killProcessOnPort os port s
      = killScan os port (SplitLines output) (s.emit .netstat w) := by
    simp [killProcessOnPort, h]
  have hp : (isPortInUse os port s).1 = (SplitLines output).any (lineMatches port) := by
    simp [isPortInUse, h, scanListening_eq_any]
  refine ⟨?_, ?_, ?_⟩
  · intro line hf
    rw [hk, killScan_of_find_some os port _ _ line hf]
    refine ⟨?_, taskkillPid_result os _ _, ?_⟩
    · rw [taskkillPid_trace]; simp [State.emit]
    · rw [hp, List.any_eq_true]
      have hmem := List.mem_of_find?_eq_some hf
      have hkl := List.find?_some hf
      refine ⟨line, hmem, ?_⟩
      simp [killable] at hkl
      exact hkl.1
  · intro hf
    rw [hk, killScan_of_find_none os port _ _ hf]
  · intro hfalse
    rw [hk]
    apply killScan_of_find_none
    rw [List.find?_eq_none]
    intro l hl hkl
    rw [hp] at hfalse
    have : (SplitLines output).any (lineMatches port) = true := by
      rw [List.any_eq_true]
      refine ⟨l, hl, ?_⟩
      simp [killable] at hkl
      exact hkl.1
    rw [this] at hfalse
    cases hfalse

/-- C10, amended, at a concrete run: one listener on port 5555 with pid 4242. -/
theorem killProcessOnPort_targets_first_killable_witness :
    (calmScript tableListening5555).toOS.netstat freshState.world
      = (.inr tableListening5555, 1) ∧
    (killProcessOnPort (calmScript tableListening5555).toOS 5555 freshState).2.trace
      = [.netstat, .taskkill "4242".toList] :=
  ⟨rfl, by
    have h := (killProcessOnPort_targets_first_killable (calmScript tableListening5555).toOS
      5555 freshState tableListening5555 1 rfl).1
        "  TCP    0.0.0.0:5555           0.0.0.0:0              LISTENING       4242\r".toList
        (by decide)
    have h1 := h.1
    have e : (Fields "  TCP    0.0.0.0:5555           0.0.0.0:0              LISTENING       4242\r".toList).getLastD []
        = "4242".toList := by decide
    rw [e] at h1
    exact h1⟩

/-! ## Supervisor: basic facts -/

/-- The answer of `isPortInUse` depends on the world only. -/
theorem isPortInUse_fst {W : Type} (os : OS W) (port : Int) (s : State W) :
    (isPortInUse os port s).1 = listeningAt os port s.world := by
  unfold isPortInUse listeningAt
  rcases h : os.netstat s.world with ⟨e | out, w⟩ <;> simp

/-- The call `isPortInUse` makes one `netstat` call and touches nothing else. -/
theorem isPortInUse_snd {W : Type} (os : OS W) (port : Int) (s : State W) :
    (isPortInUse os port s).2 = s.emit .netstat (os.netstat s.world).2 := by
  unfold isPortInUse
  rcases h : os.netstat s.world with ⟨e | out, w⟩ <;> simp

/-- The call `isPortInUse`, in one equation. -/
theorem isPortInUse_eq {W : Type} (os : OS W) (port : Int) (s : State W) :
    isPortInUse os port s
      = (listeningAt os port s.world, s.emit .netstat (os.netstat s.world).2) :=
  Prod.ext (isPortInUse_fst os port s) (isPortInUse_snd os port s)

/-- Without a process in the handle, `stopKdb` does nothing and succeeds. -/
theorem stopKdb_of_not_holdsProcess {W : Type} (os : OS W) (s : State W)
    (h : s.app.holdsProcess = false) : stopKdb os s = (none, s) := by
  unfold App.holdsProcess at h
  cases hc : s.app.kdbCmd with
  | none => simp [stopKdb, hc]
  | some c =>
    cases hp : c.Process with
    | none => simp [stopKdb, hc, hp]
    | some pid => simp [hc, hp] at h

/-- Without a process in the handle, `GetKdbStatus` reads the port. -/
theorem GetKdbStatus_of_not_holdsProcess {W : Type} (os : OS W) (s : State W)
    (h : s.app.holdsProcess = false) : GetKdbStatus os s = statusFromPort os s := by
  unfold App.holdsProcess at h
  cases hc : s.app.kdbCmd with
  | none => simp [GetKdbStatus, hc]
  | some c =>
    cases hp : c.Process with
    | none => simp [GetKdbStatus, hc, hp]
    | some pid => simp [hc, hp] at h

/-- The status read off the port is "running" exactly when the port is listening. -/
theorem statusFromPort_fst {W : Type} (os : OS W) (s : State W) :
    (statusFromPort os s).1
      = if listeningAt os s.app.kdbPort s.world then "running" else "stopped" := by
  unfold statusFromPort
  rw [← isPortInUse_fst os s.app.kdbPort s]
  rcases h : isPortInUse os s.app.kdbPort s with ⟨_ | _, s1⟩ <;> simp

/-- Reading the status off the port costs one `netstat` call. -/
theorem statusFromPort_snd {W : Type} (os : OS W) (s : State W) :
    (statusFromPort os s).2 = s.emit .netstat (os.netstat s.world).2 := by
  unfold statusFromPort
  rw [← isPortInUse_snd os s.app.kdbPort s]
  rcases h : isPortInUse os s.app.kdbPort s with ⟨_ | _, s1⟩ <;> simp

/-! ## C7: status -/

/-- C7: `GetKdbStatus` returns "running" or "stopped".  With a handle holding
a process it makes no OS call and returns "running" iff no exit is recorded on
the handle; with no such handle it returns "running" iff `isPortInUse`
reports the port listening. -/
theorem GetKdbStatus_spec {W : Type} (os : OS W) (s : State W) :
    ((GetKdbStatus os s).1 = "running" ∨ (GetKdbStatus os s).1 = "stopped") ∧
    (∀ c pid, s.app.kdbCmd = some c → c.Process = some pid →
      (GetKdbStatus os s).2 = s ∧
      ((GetKdbStatus os s).1 = "running" ↔
        ¬ ∃ st, c.ProcessState = some st ∧ st.exited = true)) ∧
    (s.app.holdsProcess = false →
      (GetKdbStatus os s).2 = (isPortInUse os s.app.kdbPort s).2 ∧
      ((GetKdbStatus os s).1 = "running" ↔ (isPortInUse os s.app.kdbPort s).1 = true)) := by
  refine ⟨?_, ?_, ?_⟩
  · by_cases hh : s.app.holdsProcess = false
    · rw [GetKdbStatus_of_not_holdsProcess os s hh, statusFromPort_fst]
      cases listeningAt os s.app.kdbPort s.world <;> simp
    · unfold App.holdsProcess at hh
      cases hc : s.app.kdbCmd with
      | none => simp [hc] at hh
      | some c =>
        cases hp : c.Process with
        | none => simp [hc, hp] at hh
        | some pid =>
          cases hs : c.ProcessState with
          | none => simp [GetKdbStatus, hc, hp, hs]
          | some st => cases he : st.exited <;> simp [GetKdbStatus, hc, hp, hs, he]
  · intro c pid hc hp
    cases hs : c.ProcessState with
    | none => simp [GetKdbStatus, hc, hp, hs]
    | some st => cases he : st.exited <;> simp [GetKdbStatus, hc, hp, hs, he]
  · intro hh
    rw [GetKdbStatus_of_not_holdsProcess os s hh, statusFromPort_fst, statusFromPort_snd,
      isPortInUse_fst, isPortInUse_snd]
    cases listeningAt os s.app.kdbPort s.world <;> simp

/-- C7 at concrete runs: a held, unwaited process reads "running" on a free
port; with no handle and a listener on 5555 the status is "running". -/
theorem GetKdbStatus_spec_witness :
    (GetKdbStatus (calmScript tableEmpty).toOS heldState).1 = "running" ∧
    (GetKdbStatus (calmScript tableListening5555).toOS freshState).1 = "running" :=
  ⟨((GetKdbStatus_spec (calmScript tableEmpty).toOS heldState).2.1
      { Process := some 100, ProcessState := none } 100 rfl rfl).2.mpr (by simp),
   ((GetKdbStatus_spec (calmScript tableListening5555).toOS freshState).2.2 rfl).2.mpr
      (by decide)⟩

/-! ## C9: stopping with no handle -/

/-- Without a process in the handle, `StopKdb` does nothing and succeeds. -/
theorem StopKdb_of_not_holdsProcess {W : Type} (os : OS W) (s : State W)
    (h : s.app.holdsProcess = false) : StopKdb os s = (none, s) := by
  unfold StopKdb
  rw [stopKdb_of_not_holdsProcess os s h]

/-- Repeating an operation that returns `(none, s)` at `s` stays at `s`. -/
theorem repeatOp_fixed {W : Type} (op : State W → Option Error × State W) (s : State W)
    (h : op s = (none, s)) (n : Nat) : repeatOp op n s = (List.replicate n none, s) := by
  induction n with
  | zero => rfl
  | succ n ih => simp [repeatOp, h, ih, List.replicate_succ]

/-- C9: with no process handle, `n` calls of `stopKdb` in a row, and `n`
calls of `StopKdb`, all succeed and leave the whole state as it was: same
handle field, same world, and a trace with no new OS call. -/
theorem stop_without_handle_repeat {W : Type} (os : OS W) (s : State W) (n : Nat)
    (h : s.app.holdsProcess = false) :
    repeatOp (stopKdb os) n s = (List.replicate n none, s) ∧
    repeatOp (StopKdb os) n s = (List.replicate n none, s) :=
  ⟨repeatOp_fixed _ s (stopKdb_of_not_holdsProcess os s h) n,
   repeatOp_fixed _ s (StopKdb_of_not_holdsProcess os s h) n⟩

/-- C9 at a concrete run: three stops of a fresh supervisor. -/
theorem stop_without_handle_repeat_witness :
    freshState.app.holdsProcess = false ∧
    (repeatOp (StopKdb (calmScript tableListening5555).toOS) 3 freshState).1
      = [none, none, none] ∧
    (repeatOp (StopKdb (calmScript tableListening5555).toOS) 3 freshState).2.trace = [] :=
  ⟨rfl,
   by rw [(stop_without_handle_repeat (calmScript tableListening5555).toOS freshState 3 rfl).2]
      rfl,
   by rw [(stop_without_handle_repeat (calmScript tableListening5555).toOS freshState 3 rfl).2]
      rfl⟩

/-! ## C3: stopping a held process -/

/-- The model of `Cmd.Wait` keeps the command in the handle field when it is there. -/
theorem cmdWait_cmd {W : Type} (os : OS W) (c : Cmd) (pid : Nat) (s : State W)
    (hc : s.app.kdbCmd = some c) (hp : c.Process = some pid) :
    ∃ c1, (cmdWait os c s).app.kdbCmd = some c1 ∧ c1.Process = some pid := by
  cases hs : c.ProcessState with
  | some st => exact ⟨c, by simp [cmdWait, hp, hs, hc], hp⟩
  | none =>
    refine ⟨{ c with ProcessState := (os.wait pid s.world).1 }, ?_, hp⟩
    simp [cmdWait, hp, hs, State.setCmd, State.emit]

/-- C3, as stated, fails: stopping a held process succeeds and the handle
field still holds the command afterwards, for `stopKdb` and for `StopKdb`. -/
theorem stopKdb_success_keeps_handle :
    (stopKdb (calmScript tableEmpty).toOS heldState).1 = none ∧
    (stopKdb (calmScript tableEmpty).toOS heldState).2.app.kdbCmd
      = some { Process := some 100, ProcessState := some { exited := true } } ∧
    (StopKdb (calmScript tableEmpty).toOS heldState).1 = none ∧
    (StopKdb (calmScript tableEmpty).toOS heldState).2.app.kdbCmd ≠ none := by
  decide

/-- C3, amended: when the handle holds the process `pid` and `stopKdb`
returns no error, the kill of `pid` succeeded and the handle field is not
cleared.  If no exit was recorded on the handle, the stop then waits for
`pid` and the handle holds the same process with the state that wait gave
(the OS calls are the kill, then the wait).  If an exit was already
recorded, `Cmd.Wait` returns at once: the only OS call is the kill and the
supervisor is left as it was.  `StopKdb` returns the same success and state. -/
theorem stopKdb_success_handle_kept {W : Type} (os : OS W) (s : State W) (c : Cmd) (pid : Nat)
    (hc : s.app.kdbCmd = some c) (hp : c.Process = some pid)
    (hok : (stopKdb os s).1 = none) :
    (os.kill pid s.world).1 = none ∧
    (c.ProcessState = none →
      (stopKdb os s).2.app.kdbCmd
        = some { Process := some pid,
                 ProcessState := (os.wait pid (os.kill pid s.world).2).1 } ∧
      (stopKdb os s).2.app.kdbPort = s.app.kdbPort ∧
      (stopKdb os s).2.world = (os.wait pid (os.kill pid s.world).2).2 ∧
      (stopKdb os s).2.trace = s.trace ++ [.kill pid, .wait pid]) ∧
    (∀ st, c.ProcessState = some st →
      (stopKdb os s).2.app = s.app ∧
      (stopKdb os s).2.world = (os.kill pid s.world).2 ∧
      (stopKdb os s).2.trace = s.trace ++ [.kill pid]) ∧
    (stopKdb os s).2.app.kdbCmd ≠ none ∧
    StopKdb os s = (none, (stopKdb os s).2) := by
  have hkill : (os.kill pid s.world).1 = none := by
    rcases hk : os.kill pid s.world with ⟨_ | e, w⟩
    · rfl
    · simp [stopKdb, hc, hp, hk] at hok
  have hs : stopKdb os s = (none, cmdWait os c (s.emit (.kill pid) (os.kill pid s.world).2)) := by
    rcases hk : os.kill pid s.world with ⟨_ | e, w⟩
    · simp [stopKdb, hc, hp, hk]
    · simp [stopKdb, hc, hp, hk] at hok
  refine ⟨hkill, ?_, ?_, ?_, ?_⟩
  · intro hst
    rw [hs]
    obtain ⟨cp, cs⟩ := c
    simp only at hp hst
    subst hp hst
    simp [cmdWait, State.emit, State.setCmd]
  · intro st hst
    rw [hs]
    simp [cmdWait, hp, hst, State.emit]
  · rw [hs]
    obtain ⟨c1, h1, _⟩ := cmdWait_cmd os c pid (s.emit (.kill pid) (os.kill pid s.world).2)
      (by simp [State.emit, hc]) hp
    rw [h1]
    simp
  · simp [StopKdb, hs]

/-- C3, amended, at a concrete run: the held process 100 is killed and waited
for, and the handle still names it, with the exit recorded. -/
theorem stopKdb_success_handle_kept_witness :
    (stopKdb (calmScript tableEmpty).toOS heldState).1 = none ∧
    (stopKdb (calmScript tableEmpty).toOS heldState).2.app.kdbCmd
      = some { Process := some 100, ProcessState := some { exited := true } } ∧
    (stopKdb (calmScript tableEmpty).toOS heldState).2.trace = [.kill 100, .wait 100] :=
  ⟨rfl,
   ((stopKdb_success_handle_kept (calmScript tableEmpty).toOS heldState
      { Process := some 100, ProcessState := none } 100 rfl rfl rfl).2.1 rfl).1,
   ((stopKdb_success_handle_kept (calmScript tableEmpty).toOS heldState
      { Process := some 100, ProcessState := none } 100 rfl rfl rfl).2.1 rfl).2.2.2⟩

/-! ## C4: a launch whose process exits at once -/

/-- C4, as stated, fails: the spawned process exits inside the window, the
port is free, the caller gets the exited-unexpectedly error, and the handle
field still holds the command of the dead process. -/
theorem startKdb_quick_exit_keeps_handle :
    (startKdb (quickExitScript tableEmpty).toOS freshState).1
      = some (.exitedUnexpectedly (some 1)) ∧
    (startKdb (quickExitScript tableEmpty).toOS freshState).2.app.kdbCmd
      = some { Process := some 100, ProcessState := some { exited := true } } := by
  decide

/-- C4, amended: when the executable is found, the script written and the
process spawned with pid `pid`, and the process exits inside the window
(its `Wait` returning `err` and recording `st`) while the port is not
listening, `startKdb` returns the exited-unexpectedly error carrying `err`,
and the handle field holds the spawned command with `st` recorded. -/
theorem startKdb_quick_exit {W : Type} (os : OS W) (s : State W) (w1 w2 w3 w4 : W)
    (pid : Nat) (err : Option OsErr) (st : Option OsProcessState)
    (h1 : os.lookPath s.world = (none, w1))
    (h2 : os.writeFile (scriptContent s.app.kdbPort) w1 = (none, w2))
    (h3 : os.start w2 = (.inr pid, w3))
    (h4 : os.awaitExit pid w3 = (some (err, st), w4))
    (h5 : listeningAt os s.app.kdbPort w4 = false) :
    (startKdb os s).1 = some (.exitedUnexpectedly err) ∧
    (startKdb os s).2.app.kdbCmd = some { Process := some pid, ProcessState := st } ∧
    (startKdb os s).2.trace
      = s.trace ++ [.lookPath, .writeFile, .spawn, .awaitExit pid, .netstat] := by
  simp [startKdb, h1, h2, h3, h4, State.emit, State.setCmd, isPortInUse_eq, h5]

/-- C4, amended, at a concrete run: pid 100 exits with error 1, port free. -/
theorem startKdb_quick_exit_witness :
    (startKdb (quickExitScript tableEmpty).toOS freshState).1
      = some (.exitedUnexpectedly (some 1)) :=
  (startKdb_quick_exit (quickExitScript tableEmpty).toOS freshState 0 0 0 0 100 (some 1)
    (some { exited := true }) rfl rfl rfl rfl (by decide)).1

/-! ## C2: starting twice -/

/-- A successful `startKdb` leaves either no handle (an external listener
was adopted) or the fresh handle of a process not yet waited for. -/
theorem startKdb_ok_cmd {W : Type} (os : OS W) (s : State W) (h : (startKdb os s).1 = none) :
    (startKdb os s).2.app.kdbCmd = none ∨
    ∃ pid, (startKdb os s).2.app.kdbCmd = some { Process := some pid, ProcessState := none } := by
  rcases h1 : os.lookPath s.world with ⟨_ | e1, w1⟩
  · rcases h2 : os.writeFile (scriptContent s.app.kdbPort) w1 with ⟨_ | e2, w2⟩
    · rcases h3 : os.start w2 with ⟨e3 | pid, w3⟩
      · simp [startKdb, h1, h2, h3, State.emit, State.setCmd] at h
      · rcases h4 : os.awaitExit pid w3 with ⟨_ | ⟨err, st⟩, w4⟩
        · right
          exact ⟨pid, by simp [startKdb, h1, h2, h3, h4, State.emit, State.setCmd]⟩
        · cases h5 : listeningAt os s.app.kdbPort w4
          · simp [startKdb, h1, h2, h3, h4, State.emit, State.setCmd, isPortInUse_eq, h5] at h
          · left
            simp [startKdb, h1, h2, h3, h4, State.emit, State.setCmd, isPortInUse_eq, h5]
    · simp [startKdb, h1, h2, State.emit] at h
  · simp [startKdb, h1] at h

/-- A successful `StartKdb` went through a successful `startKdb`, so it too
leaves no handle or a fresh one. -/
theorem StartKdb_ok_cmd {W : Type} (os : OS W) (s : State W) (h : (StartKdb os s).1 = none) :
    (StartKdb os s).2.app.kdbCmd = none ∨
    ∃ pid, (StartKdb os s).2.app.kdbCmd = some { Process := some pid, ProcessState := none } := by
  rcases hg : GetKdbStatus os s with ⟨status, s1⟩
  by_cases hr : status = "running"
  · simp [StartKdb, hg, hr] at h
  · rcases hk : startKdb os s1 with ⟨_ | e, s2⟩
    · have := startKdb_ok_cmd os s1 (by rw [hk])
      simpa [StartKdb, hg, hr, hk] using this
    · simp [StartKdb, hg, hr, hk] at h

/-- C2, as stated, fails: the first `StartKdb` succeeds by adopting a listener
that is gone at the second call; the second call is not refused as already
running, it spawns a second process. -/
theorem StartKdb_twice_spawns_again :
    (StartKdb briefListenerScript.toOS freshState).1 = none ∧
    (StartKdb briefListenerScript.toOS (StartKdb briefListenerScript.toOS freshState).2).1
      = some (.startFailed (.exitedUnexpectedly (some 1))) ∧
    (StartKdb briefListenerScript.toOS (StartKdb briefListenerScript.toOS freshState).2).2.trace
      = [.netstat, .lookPath, .writeFile, .spawn, .awaitExit 100, .netstat,
         .netstat, .lookPath, .writeFile, .spawn, .awaitExit 100, .netstat] := by
  decide

/-- C2, amended: if `StartKdb` succeeds and is called again at once, and the
first call either kept its handle or adopted a listener that the port still
shows at the second call, then the second call fails with the
already-running error, leaves the supervisor as it was, and makes no OS call
other than at most one `netstat`: no lookup, no script write, no spawn. -/
theorem StartKdb_twice_already_running {W : Type} (os : OS W) (s : State W)
    (h1 : (StartKdb os s).1 = none)
    (h2 : (StartKdb os s).2.app.kdbCmd ≠ none ∨
      listeningAt os (StartKdb os s).2.app.kdbPort (StartKdb os s).2.world = true) :
    (StartKdb os (StartKdb os s).2).1 = some .alreadyRunning ∧
    (StartKdb os (StartKdb os s).2).2.app = (StartKdb os s).2.app ∧
    ((StartKdb os (StartKdb os s).2).2.trace = (StartKdb os s).2.trace ∨
     (StartKdb os (StartKdb os s).2).2.trace = (StartKdb os s).2.trace ++ [.netstat]) := by
  have hc := StartKdb_ok_cmd os s h1
  generalize (StartKdb os s).2 = t at hc h2 ⊢
  rcases hc with hnone | ⟨pid, hsome⟩
  · have hl : listeningAt os t.app.kdbPort t.world = true := by
      rcases h2 with h | h
      · exact absurd hnone h
      · exact h
    have hh : t.app.holdsProcess = false := by simp [App.holdsProcess, hnone]
    have hg : GetKdbStatus os t = ("running", t.emit .netstat (os.netstat t.world).2) := by
      rw [GetKdbStatus_of_not_holdsProcess os t hh]
      exact Prod.ext (by rw [statusFromPort_fst, hl]; rfl) (statusFromPort_snd os t)
    simp [StartKdb, hg, State.emit]
  · have hg : GetKdbStatus os t = ("running", t) := by
      simp [GetKdbStatus, hsome]
    simp [StartKdb, hg]

/-- C2, amended, at a concrete run: the first start keeps process 100, the
second is refused. -/
theorem StartKdb_twice_already_running_witness :
    (StartKdb (calmScript tableEmpty).toOS freshState).1 = none ∧
    (StartKdb (calmScript tableEmpty).toOS
      (StartKdb (calmScript tableEmpty).toOS freshState).2).1 = some .alreadyRunning :=
  ⟨by decide,
   (StartKdb_twice_already_running (calmScript tableEmpty).toOS freshState (by decide)
      (Or.inl (by decide))).1⟩

/-! ## C5: the three steps of `ForceStartKdb` -/

/-- The launch step of `ForceStartKdb` returns the result of `startKdb`,
an error being wrapped. -/
theorem forceLaunch_eq {W : Type} (os : OS W) (s : State W) :
    forceLaunch os s = ((startKdb os s).1.map .forceStartFailed, (startKdb os s).2) := by
  unfold forceLaunch
  rcases h : startKdb os s with ⟨_ | e, s1⟩ <;> simp

/-- C5, as stated, fails at step 2: the supervisor holds process 7, the port
is free, `stopKdb` fails because the kill fails, and `ForceStartKdb` goes on
to launch and returns no error. -/
theorem ForceStartKdb_ignores_stop_failure :
    (stopKdb killFailsScript.toOS (isPortInUse killFailsScript.toOS 5555 heldState7).2).1
      = some (.stopProcessFailed (.os 1)) ∧
    (ForceStartKdb killFailsScript.toOS heldState7).1 = none ∧
    (ForceStartKdb killFailsScript.toOS heldState7).2.trace
      = [.netstat, .kill 7, .sleep 1, .lookPath, .writeFile, .spawn, .awaitExit 100] := by
  decide

/-- Step 1 failing: `ForceStartKdb` stops in the state the failed kill left. -/
theorem ForceStartKdb_of_kill_failed {W : Type} (os : OS W) (s : State W) (e : Error)
    (hin : (isPortInUse os s.app.kdbPort s).1 = true)
    (hkill : (killProcessOnPort os s.app.kdbPort (isPortInUse os s.app.kdbPort s).2).1 = some e) :
    ForceStartKdb os s = (some (.killExistingFailed e),
      (killProcessOnPort os s.app.kdbPort (isPortInUse os s.app.kdbPort s).2).2) := by
  have hport : (isPortInUse os s.app.kdbPort s).2.app.kdbPort = s.app.kdbPort := by
    rw [isPortInUse_snd]; rfl
  unfold ForceStartKdb
  rcases hi : isPortInUse os s.app.kdbPort s with ⟨b, s1⟩
  rw [hi] at hin hkill hport
  simp only at hin hkill hport
  subst hin
  simp only [hport]
  rcases hk : killProcessOnPort os s.app.kdbPort s1 with ⟨r, s2⟩
  rw [hk] at hkill
  simp only at hkill
  subst hkill
  rfl

/-- Step 1 succeeding: `ForceStartKdb` sleeps, runs step 2 and launches. -/
theorem ForceStartKdb_of_kill_ok {W : Type} (os : OS W) (s : State W)
    (hin : (isPortInUse os s.app.kdbPort s).1 = true)
    (hkill : (killProcessOnPort os s.app.kdbPort (isPortInUse os s.app.kdbPort s).2).1 = none) :
    ForceStartKdb os s =
      ((startKdb os (stopOwnProcess os (sleepSeconds os 2
          (killProcessOnPort os s.app.kdbPort (isPortInUse os s.app.kdbPort s).2).2))).1.map
        .forceStartFailed,
       (startKdb os (stopOwnProcess os (sleepSeconds os 2
          (killProcessOnPort os s.app.kdbPort (isPortInUse os s.app.kdbPort s).2).2))).2) := by
  have hport : (isPortInUse os s.app.kdbPort s).2.app.kdbPort = s.app.kdbPort := by
    rw [isPortInUse_snd]; rfl
  unfold ForceStartKdb
  rcases hi : isPortInUse os s.app.kdbPort s with ⟨b, s1⟩
  rw [hi] at hin hkill hport
  simp only at hin hkill hport
  subst hin
  simp only [hport]
  rcases hk : killProcessOnPort os s.app.kdbPort s1 with ⟨r, s2⟩
  rw [hk] at hkill
  simp only at hkill
  subst hkill
  simp only [forceLaunch_eq]

/-- Step 1 skipped (port free): `ForceStartKdb` runs step 2 and launches. -/
theorem ForceStartKdb_of_port_free {W : Type} (os : OS W) (s : State W)
    (hin : (isPortInUse os s.app.kdbPort s).1 = false) :
    ForceStartKdb os s =
      ((startKdb os (stopOwnProcess os (isPortInUse os s.app.kdbPort s).2)).1.map
        .forceStartFailed,
       (startKdb os (stopOwnProcess os (isPortInUse os s.app.kdbPort s).2)).2) := by
  unfold ForceStartKdb
  rcases hi : isPortInUse os s.app.kdbPort s with ⟨b, s1⟩
  rw [hi] at hin
  simp only at hin
  subst hin
  simp only [forceLaunch_eq]

/-- Step 2 with a held process: `stopKdb`, its result dropped, then a sleep. -/
theorem stopOwnProcess_of_holdsProcess {W : Type} (os : OS W) (t : State W)
    (ht : t.app.holdsProcess = true) :
    stopOwnProcess os t = sleepSeconds os 1 (stopKdb os t).2 := by
  unfold App.holdsProcess at ht
  cases hc : t.app.kdbCmd with
  | none => simp [hc] at ht
  | some c =>
    cases hp : c.Process with
    | none => simp [hc, hp] at ht
    | some pid => simp [stopOwnProcess, hc, hp]

/-- Step 2 without a held process does nothing. -/
theorem stopOwnProcess_of_not_holdsProcess {W : Type} (os : OS W) (t : State W)
    (ht : t.app.holdsProcess = false) : stopOwnProcess os t = t := by
  unfold App.holdsProcess at ht
  cases hc : t.app.kdbCmd with
  | none => simp [stopOwnProcess, hc]
  | some c =>
    cases hp : c.Process with
    | none => simp [stopOwnProcess, hc, hp]
    | some pid => simp [hc, hp] at ht

/-- Every error of `startKdb` is one of its own four launch errors. -/
theorem startKdb_error_isLaunchError {W : Type} (os : OS W) (s : State W) (e : Error)
    (h : (startKdb os s).1 = some e) : e.isLaunchError = true := by
  rcases h1 : os.lookPath s.world with ⟨_ | e1, w1⟩
  · rcases h2 : os.writeFile (scriptContent s.app.kdbPort) w1 with ⟨_ | e2, w2⟩
    · rcases h3 : os.start w2 with ⟨e3 | pid, w3⟩
      · simp [startKdb, h1, h2, h3, State.emit, State.setCmd] at h
        subst h; rfl
      · rcases h4 : os.awaitExit pid w3 with ⟨_ | ⟨err, st⟩, w4⟩
        · simp [startKdb, h1, h2, h3, h4, State.emit, State.setCmd] at h
        · cases h5 : listeningAt os s.app.kdbPort w4
          · simp [startKdb, h1, h2, h3, h4, State.emit, State.setCmd, isPortInUse_eq, h5] at h
            subst h; rfl
          · simp [startKdb, h1, h2, h3, h4, State.emit, State.setCmd, isPortInUse_eq, h5] at h
    · simp [startKdb, h1, h2, State.emit] at h
      subst h; rfl
  · simp [startKdb, h1] at h
    subst h; rfl

/-- Every error of `ForceStartKdb` is a wrapped failure of step 1 or a
wrapped launch error. -/
theorem ForceStartKdb_error_forms {W : Type} (os : OS W) (s : State W) (e : Error)
    (h : (ForceStartKdb os s).1 = some e) :
    (∃ e1, e = .killExistingFailed e1 ∧
      (killProcessOnPort os s.app.kdbPort (isPortInUse os s.app.kdbPort s).2).1 = some e1) ∨
    (∃ e3, e = .forceStartFailed e3 ∧ e3.isLaunchError = true) := by
  have hlaunch : ∀ t : State W, (startKdb os t).1.map Error.forceStartFailed = some e →
      ∃ e3, e = .forceStartFailed e3 ∧ e3.isLaunchError = true := by
    intro t ht
    cases hr : (startKdb os t).1 with
    | none => rw [hr] at ht; cases ht
    | some e3 =>
      rw [hr] at ht
      simp only [Option.map_some', Option.some.injEq] at ht
      exact ⟨e3, ht.symm, startKdb_error_isLaunchError os t e3 hr⟩
  cases hin : (isPortInUse os s.app.kdbPort s).1 with
  | false =>
    rw [ForceStartKdb_of_port_free os s hin] at h
    exact Or.inr (hlaunch _ h)
  | true =>
    cases hk : (killProcessOnPort os s.app.kdbPort (isPortInUse os s.app.kdbPort s).2).1 with
    | none =>
      rw [ForceStartKdb_of_kill_ok os s hin hk] at h
      exact Or.inr (hlaunch _ h)
    | some e1 =>
      rw [ForceStartKdb_of_kill_failed os s e1 hin hk] at h
      simp only [Option.some.injEq] at h
      exact Or.inl ⟨e1, h.symm, rfl⟩

/-- C5, amended: (1) if the port is listening and `killProcessOnPort` fails
with `e`, `ForceStartKdb` returns `e` wrapped and stops there, in the state
the failed kill left: no stop, no launch.  (3) Otherwise its result is that
of the launch `startKdb`, a launch error `e` coming back wrapped, run from
the state left by step 2.  (2) Step 2 runs `stopKdb` when a process is held
and keeps only the state it leaves: a failure of `stopKdb` is dropped and
the launch still runs.  So every error of `ForceStartKdb` is a wrapped
failure of step 1 or a wrapped launch error of step 3. -/
theorem ForceStartKdb_steps {W : Type} (os : OS W) (s : State W) :
    (∀ e, (isPortInUse os s.app.kdbPort s).1 = true →
      (killProcessOnPort os s.app.kdbPort (isPortInUse os s.app.kdbPort s).2).1 = some e →
      ForceStartKdb os s = (some (.killExistingFailed e),
        (killProcessOnPort os s.app.kdbPort (isPortInUse os s.app.kdbPort s).2).2)) ∧
    ((isPortInUse os s.app.kdbPort s).1 = true →
      (killProcessOnPort os s.app.kdbPort (isPortInUse os s.app.kdbPort s).2).1 = none →
      ForceStartKdb os s =
        ((startKdb os (stopOwnProcess os (sleepSeconds os 2
            (killProcessOnPort os s.app.kdbPort (isPortInUse os s.app.kdbPort s).2).2))).1.map
          .forceStartFailed,
         (startKdb os (stopOwnProcess os (sleepSeconds os 2
            (killProcessOnPort os s.app.kdbPort (isPortInUse os s.app.kdbPort s).2).2))).2)) ∧
    ((isPortInUse os s.app.kdbPort s).1 = false →
      ForceStartKdb os s =
        ((startKdb os (stopOwnProcess os (isPortInUse os s.app.kdbPort s).2)).1.map
          .forceStartFailed,
         (startKdb os (stopOwnProcess os (isPortInUse os s.app.kdbPort s).2)).2)) ∧
    (∀ t : State W, t.app.holdsProcess = true →
      stopOwnProcess os t = sleepSeconds os 1 (stopKdb os t).2) ∧
    (∀ t : State W, t.app.holdsProcess = false → stopOwnProcess os t = t) ∧
    (∀ e, (ForceStartKdb os s).1 = some e →
      (∃ e1, e = .killExistingFailed e1 ∧
        (killProcessOnPort os s.app.kdbPort (isPortInUse os s.app.kdbPort s).2).1 = some e1) ∨
      (∃ e3, e = .forceStartFailed e3 ∧ e3.isLaunchError = true)) :=
  ⟨fun e => ForceStartKdb_of_kill_failed os s e,
   ForceStartKdb_of_kill_ok os s,
   ForceStartKdb_of_port_free os s,
   stopOwnProcess_of_holdsProcess os,
   stopOwnProcess_of_not_holdsProcess os,
   ForceStartKdb_error_forms os s⟩

/-- C5, amended, at a concrete run: the only matching netstat line names no
owner, so step 1 fails and its error comes back wrapped, with nothing run
after the two `netstat` calls. -/
theorem ForceStartKdb_steps_witness :
    (ForceStartKdb (calmScript tableShortLine).toOS freshState).1
      = some (.killExistingFailed (.noProcessListening 5555)) ∧
    (ForceStartKdb (calmScript tableShortLine).toOS freshState).2.trace
      = [.netstat, .netstat] := by
  have h := (ForceStartKdb_steps (calmScript tableShortLine).toOS freshState).1
    (.noProcessListening 5555) (by decide) (by decide)
  rw [h]
  exact ⟨rfl, by decide⟩

/-! ## C6: restarting against an external listener -/

/-- C6, as stated, fails: no handle, a listener on 5555 at every `netstat`
call, the spawned process exits inside the window; `RestartKdb` finds the
port listening, adopts the listener and returns no error. -/
theorem RestartKdb_external_listener_succeeds :
    freshState.app.holdsProcess = false ∧
    (∀ k : Nat, listeningAt (quickExitScript tableListening5555).toOS 5555 k = true) ∧
    (RestartKdb (quickExitScript tableListening5555).toOS freshState).1 = none ∧
    (RestartKdb (quickExitScript tableListening5555).toOS freshState).2.app.kdbCmd = none ∧
    (RestartKdb (quickExitScript tableListening5555).toOS freshState).2.trace
      = [.sleep 2, .lookPath, .writeFile, .spawn, .awaitExit 100, .netstat] := by
  refine ⟨rfl, ?_, ?_, ?_, ?_⟩
  · intro k
    have : listeningAt (quickExitScript tableListening5555).toOS 5555 k
        = scanListening 5555 (SplitLines tableListening5555) := rfl
    rw [this]
    decide
  · decide
  · decide
  · decide

/-- C6, amended: with no process handle and the port reported listening at
every inspection, in `RestartKdb` the stop does nothing, no kill of any kind
is issued (the occupant is not evicted), and the start, which makes no
status check, fails exactly when the executable lookup, the script write or
the spawn fails; once the process is spawned `RestartKdb` returns success.
After such a success the handle is the fresh one of the spawned process
when it outlived the window, and absent when it exited inside the window
(the listener is adopted). -/
theorem RestartKdb_external_listener {W : Type} (os : OS W) (s : State W)
    (hh : s.app.holdsProcess = false)
    (hL : ∀ w, listeningAt os s.app.kdbPort w = true) :
    stopKdb os s = (none, s) ∧
    (∃ t, (RestartKdb os s).2.trace = s.trace ++ t ∧ ∀ e ∈ t, e.isKill = false) ∧
    ((RestartKdb os s).1 = none ↔
      (os.lookPath (os.sleep 2 s.world)).1 = none ∧
      (os.writeFile (scriptContent s.app.kdbPort) (os.lookPath (os.sleep 2 s.world)).2).1 = none ∧
      ∃ pid, (os.start (os.writeFile (scriptContent s.app.kdbPort)
        (os.lookPath (os.sleep 2 s.world)).2).2).1 = .inr pid) ∧
    (∀ pid, (os.lookPath (os.sleep 2 s.world)).1 = none →
      (os.writeFile (scriptContent s.app.kdbPort) (os.lookPath (os.sleep 2 s.world)).2).1 = none →
      (os.start (os.writeFile (scriptContent s.app.kdbPort)
        (os.lookPath (os.sleep 2 s.world)).2).2).1 = .inr pid →
      ((os.awaitExit pid (os.start (os.writeFile (scriptContent s.app.kdbPort)
          (os.lookPath (os.sleep 2 s.world)).2).2).2).1 = none →
        (RestartKdb os s).2.app.kdbCmd = some { Process := some pid, ProcessState := none }) ∧
      (∀ r, (os.awaitExit pid (os.start (os.writeFile (scriptContent s.app.kdbPort)
          (os.lookPath (os.sleep 2 s.world)).2).2).2).1 = some r →
        (RestartKdb os s).2.app.kdbCmd = none)) := by
  have h0 := stopKdb_of_not_holdsProcess os s hh
  refine ⟨h0, ?_⟩
  rcases h1 : os.lookPath (os.sleep 2 s.world) with ⟨_ | e1, w1⟩
  · rcases h2 : os.writeFile (scriptContent s.app.kdbPort) w1 with ⟨_ | e2, w2⟩
    · rcases h3 : os.start w2 with ⟨e3 | pid, w3⟩
      · refine ⟨⟨[.sleep 2, .lookPath, .writeFile, .spawn], ?_, ?_⟩, ?_, ?_⟩
        · simp [RestartKdb, h0, startKdb, sleepSeconds, State.emit, State.setCmd, h1, h2, h3]
        · simp [Event.isKill]
        · simp [RestartKdb, h0, startKdb, sleepSeconds, State.emit, State.setCmd, h1, h2, h3]
        · intro pid _ _ hstart
          simp at hstart
      · rcases h4 : os.awaitExit pid w3 with ⟨_ | ⟨err, st⟩, w4⟩
        · refine ⟨⟨[.sleep 2, .lookPath, .writeFile, .spawn, .awaitExit pid], ?_, ?_⟩, ?_, ?_⟩
          · simp [RestartKdb, h0, startKdb, sleepSeconds, State.emit, State.setCmd,
              h1, h2, h3, h4]
          · simp [Event.isKill]
          · simp [RestartKdb, h0, startKdb, sleepSeconds, State.emit, State.setCmd,
              h1, h2, h3, h4]
          · intro pid1 _ _ hstart
            simp only [Sum.inr.injEq] at hstart
            subst hstart
            rw [h4]
            refine ⟨fun _ => ?_, fun r hr => by simp at hr⟩
            simp [RestartKdb, h0, startKdb, sleepSeconds, State.emit, State.setCmd,
              h1, h2, h3, h4]
        · refine ⟨⟨[.sleep 2, .lookPath, .writeFile, .spawn, .awaitExit pid, .netstat],
            ?_, ?_⟩, ?_, ?_⟩
          · simp [RestartKdb, h0, startKdb, sleepSeconds, State.emit, State.setCmd,
              h1, h2, h3, h4, isPortInUse_eq, hL]
          · simp [Event.isKill]
          · simp [RestartKdb, h0, startKdb, sleepSeconds, State.emit, State.setCmd,
              h1, h2, h3, h4, isPortInUse_eq, hL]
          · intro pid1 _ _ hstart
            simp only [Sum.inr.injEq] at hstart
            subst hstart
            rw [h4]
            refine ⟨fun hn => by simp at hn, fun r _ => ?_⟩
            simp [RestartKdb, h0, startKdb, sleepSeconds, State.emit, State.setCmd,
              h1, h2, h3, h4, isPortInUse_eq, hL]
    · refine ⟨⟨[.sleep 2, .lookPath, .writeFile], ?_, ?_⟩, ?_, ?_⟩
      · simp [RestartKdb, h0, startKdb, sleepSeconds, State.emit, h1, h2]
      · simp [Event.isKill]
      · simp [RestartKdb, h0, startKdb, sleepSeconds, State.emit, h1, h2]
      · intro pid _ hwrite _
        simp at hwrite
  · refine ⟨⟨[.sleep 2, .lookPath], ?_, ?_⟩, ?_, ?_⟩
    · simp [RestartKdb, h0, startKdb, sleepSeconds, State.emit, h1]
    · simp [Event.isKill]
    · simp [RestartKdb, h0, startKdb, sleepSeconds, State.emit, h1]
    · intro pid hlook _ _
      simp at hlook

/-- C6, amended, at a concrete run: a listener on 5555 throughout, the
spawned process 100 exits inside the window; the restart succeeds and no
handle is kept. -/
theorem RestartKdb_external_listener_witness :
    freshState.app.holdsProcess = false ∧
    (RestartKdb (quickExitScript tableListening5555).toOS freshState).1 = none ∧
    (RestartKdb (quickExitScript tableListening5555).toOS freshState).2.app.kdbCmd = none := by
  have hL : ∀ k : Nat,
      listeningAt (quickExitScript tableListening5555).toOS freshState.app.kdbPort k = true := by
    intro k
    have : listeningAt (quickExitScript tableListening5555).toOS freshState.app.kdbPort k
        = scanListening 5555 (SplitLines tableListening5555) := rfl
    rw [this]
    decide
  have h := RestartKdb_external_listener (quickExitScript tableListening5555).toOS
    freshState rfl hL
  exact ⟨rfl, h.2.2.1.mpr ⟨rfl, rfl, 100, rfl⟩,
    (h.2.2.2 100 rfl rfl rfl).2 (some 1, some { exited := true }) rfl⟩

/-! ## C8: eviction, then no executable -/

/-- A successful loop of `killProcessOnPort` issued one `taskkill` and left
the supervisor untouched. -/
theorem killScan_ok {W : Type} (os : OS W) (port : Int) :
    ∀ (lines : List GoString) (s : State W), (killScan os port lines s).1 = none →
      ∃ pid w, (killScan os port lines s).2 = s.emit (.taskkill pid) w := by
  intro lines
  induction lines with
  | nil => intro s h; simp [killScan] at h
  | cons l rest ih =>
    intro s h
    by_cases hm : lineMatches port l = true
    · by_cases hl : 5 ≤ (Fields l).length
      · have e : killScan os port (l :: rest) s
            = taskkillPid os ((Fields l).getLastD []) s := by
          simp [killScan, hm, hl]
        rw [e] at h ⊢
        generalize (Fields l).getLastD [] = pid at h ⊢
        unfold taskkillPid at h ⊢
        rcases ht : os.taskkill pid s.world with ⟨_ | e1, w⟩
        · exact ⟨pid, w, rfl⟩
        · rw [ht] at h
          cases h
      · have e : killScan os port (l :: rest) s = killScan os port rest s := by
          simp [killScan, hm, hl]
        rw [e] at h ⊢
        exact ih s h
    · have e : killScan os port (l :: rest) s = killScan os port rest s := by
        simp [killScan, hm]
      rw [e] at h ⊢
      exact ih s h

/-- A successful `killProcessOnPort` made one `netstat` call and one
`taskkill`, and left the supervisor untouched. -/
theorem killProcessOnPort_ok {W : Type} (os : OS W) (port : Int) (s : State W)
    (h : (killProcessOnPort os port s).1 = none) :
    ∃ pid w, (killProcessOnPort os port s).2
      = (s.emit .netstat (os.netstat s.world).2).emit (.taskkill pid) w := by
  rcases hn : os.netstat s.world with ⟨e | out, w1⟩
  · simp [killProcessOnPort, hn] at h
  · have e : killProcessOnPort os port s = killScan os port (SplitLines out) (s.emit .netstat w1) := by
      simp [killProcessOnPort, hn]
    rw [e] at h ⊢
    exact killScan_ok os port _ _ h

/-- Order of the calls when the launch fails at the lookup: with no process
handle, `isPortInUse` answering true, `killProcessOnPort` succeeding and
`q` not on the search path, `ForceStartKdb` calls `netstat`, `netstat`,
`taskkill` (for the pid `killProcessOnPort` picked), the two-second sleep
and the executable lookup, and nothing else: no script write, no spawn.  It
returns the lookup error wrapped and leaves the supervisor as it was. -/
theorem ForceStartKdb_kill_then_lookup_failure {W : Type} (os : OS W) (s : State W)
    (e : OsErr)
    (hh : s.app.holdsProcess = false)
    (h1 : (isPortInUse os s.app.kdbPort s).1 = true)
    (h2 : (killProcessOnPort os s.app.kdbPort (isPortInUse os s.app.kdbPort s).2).1 = none)
    (h3 : (os.lookPath (os.sleep 2
      (killProcessOnPort os s.app.kdbPort (isPortInUse os s.app.kdbPort s).2).2.world)).1
        = some e) :
    (ForceStartKdb os s).1 = some (.forceStartFailed (.qNotFound (.os e))) ∧
    (ForceStartKdb os s).2.app = s.app ∧
    ∃ pid, (ForceStartKdb os s).2.trace
      = s.trace ++ [.netstat, .netstat, .taskkill pid, .sleep 2, .lookPath] := by
  have hstep := ForceStartKdb_of_kill_ok os s h1 h2
  obtain ⟨pid, w, hk⟩ := killProcessOnPort_ok os s.app.kdbPort _ h2
  rw [hk] at hstep h3
  have happ : (sleepSeconds os 2 (((isPortInUse os s.app.kdbPort s).2.emit .netstat
      (os.netstat (isPortInUse os s.app.kdbPort s).2.world).2).emit (.taskkill pid) w)).app
        = s.app := by
    rw [isPortInUse_snd]; rfl
  have hown := stopOwnProcess_of_not_holdsProcess os _ (show _ = false by rw [happ]; exact hh)
  rw [hown] at hstep
  rw [hstep]
  rcases hl : os.lookPath (os.sleep 2 w) with ⟨r, w5⟩
  have hr : r = some e := by
    have : (os.lookPath (os.sleep 2 w)).1 = some e := h3
    rw [hl] at this
    exact this
  subst hr
  refine ⟨?_, ?_, pid, ?_⟩
  · simp [startKdb, sleepSeconds, State.emit, hl]
  · simp [startKdb, sleepSeconds, State.emit, hl, isPortInUse_snd]
  · simp [startKdb, sleepSeconds, State.emit, hl, isPortInUse_snd]

/-- C8, at the failing input: port 5555 is listening, owned by pid 4242, a
listener on port 55555 (pid 4321) is printed first, no handle is held and
`q` is not on the search path.  `ForceStartKdb` kills pid 4321, not the
listener on 5555, then fails with the executable-not-found error without
writing a script or spawning. -/
theorem ForceStartKdb_kills_owner_of_longer_port :
    freshState.app.holdsProcess = false ∧
    specIsPortListening 5555 tableTwoListeners = true ∧
    specFindOwningProcessId 5555 tableTwoListeners = some "4242".toList ∧
    (ForceStartKdb wrongOwnerScript.toOS freshState).1
      = some (.forceStartFailed (.qNotFound (.os 2))) ∧
    (ForceStartKdb wrongOwnerScript.toOS freshState).2.app.kdbCmd = none ∧
    (ForceStartKdb wrongOwnerScript.toOS freshState).2.trace
      = [.netstat, .netstat, .taskkill "4321".toList, .sleep 2, .lookPath] := by
  decide

end QuantCanvas
